import Mathlib

/-!
Verification of the protocol driver and sample-assembly engine of
`can_a552_logger.py`: COB-ID derivation, device-profile resolution,
SDO frame encoding/decoding, the SDO response wait loop, the TIME
message arithmetic, the PDO completion state machine of the main
receive loop, and the shutdown paths of `main`.

Machine integers are modelled as `Nat`/`Int`; the floating-point scale
constants of the source are modelled as exact rationals with the same
decimal values.
-/

namespace CanA552

/-- Shallow embedding of the module-level `cob_id` dictionary: one field
per key of the Python dict (source lines 377-391). -/
structure CobId where
  NMT : Nat
  SYNC : Nat
  TIME : Nat
  TPDO1 : Nat
  TPDO2 : Nat
  TPDO3 : Nat
  TPDO4 : Nat
  RSDO : Nat
  TSDO : Nat
  HBx : Nat
  HB : Nat
  HB1 : Nat
  HB2 : Nat
deriving DecidableEq, Repr

/-- Initial contents of the `cob_id` dictionary. -/
def cob_id_init : CobId :=
  { NMT := 0x000, SYNC := 0x080, TIME := 0x100
  , TPDO1 := 0x180, TPDO2 := 0x280, TPDO3 := 0x380, TPDO4 := 0x480
  , RSDO := 0x580, TSDO := 0x600
  , HBx := 0x700, HB := 0x700, HB1 := 0x701, HB2 := 0x702 }

/-- `set_cobid(node_id)` (source lines 574-583): adds `node_id` in place to
the TPDO1-4, RSDO, TSDO and HBx entries of `cob_id`.  Modelled as a
function from the old registry to the new one. -/
def set_cobid (c : CobId) (node_id : Nat) : CobId :=
  { c with
    TPDO1 := c.TPDO1 + node_id
  , TPDO2 := c.TPDO2 + node_id
  , TPDO3 := c.TPDO3 + node_id
  , TPDO4 := c.TPDO4 + node_id
  , RSDO := c.RSDO + node_id
  , TSDO := c.TSDO + node_id
  , HBx := c.HBx + node_id }

/-- `set_hb_id(node_num)` (source lines 397-405) fills the `hb_id` dict with
`HB1 .. HB<node_num>` mapped to `0x700 + 1 .. 0x700 + node_num`.  This is
the list of those identifier values, in order. -/
def set_hb_id (node_num : Nat) : List Nat :=
  (List.range node_num).map (fun i => 0x700 + (i + 1))

/-- The full identifier set produced by a session's derivation
(`set_cobid(n)` plus `set_hb_id(N)`): the eleven protocol-function entries
NMT, SYNC, TIME, TPDO1-4, RSDO, TSDO, heartbeat (the registry `HB` entry,
`0x700`, used by the heartbeat receive filters) followed by the per-node
heartbeat identifiers HB1..HBN. -/
def derivedIds (n N : Nat) : List Nat :=
  let c := set_cobid cob_id_init n
  [c.NMT, c.SYNC, c.TIME, c.TPDO1, c.TPDO2, c.TPDO3, c.TPDO4,
   c.RSDO, c.TSDO, c.HB] ++ set_hb_id N

/-- The scale-factor dictionary `sf` built by `setModel` / `set_SCL`. -/
structure ScaleFactors where
  model_epson : String
  SF_GYRO : ℚ
  SF_ACCL : ℚ
  SF_TEMP : ℚ
  TEMPC_25C : ℚ
deriving DecidableEq, Repr

/-- `setModel(imuModel)` (source lines 479-572).  The Python function leaves
the local variables `SF_GYRO` .. `TEMPC_25C` unassigned when a length
branch is entered but no product-code test inside it matches (lengths
`<= 4`, `== 7` and `>= 8`); reading them then raises `UnboundLocalError`,
modelled as `none`.  The trailing `else` (reached exactly for lengths 5
and 6) assigns the defaults `(1, 1, 1, 0)`. -/
def setModel (imuModel : String) : Option ScaleFactors :=
  let length := imuModel.length
  if length ≤ 4 then
    if imuModel = "G320" then
      some ⟨imuModel, 0.008, 0.2, -0.0037918, -2634⟩
    else if imuModel = "G354" then
      some ⟨imuModel, 0.016, 0.20, -0.0037918, -2634⟩
    else if imuModel = "G570" then
      some ⟨imuModel, 0.0151515, 0.4, -0.0037918, -2634⟩
    else if imuModel = "MIU" then
      some ⟨imuModel, 0.0151515, 0.4, -0.0037918, -2634⟩
    else none
  else if length ≥ 8 then
    if imuModel = "G364PDC0" then
      some ⟨imuModel, 0.0075, 0.125, -0.0037918, -2634⟩
    else if imuModel = "G364PDCA" then
      some ⟨imuModel, 0.00375, 0.125, -0.0037918, -2634⟩
    else if imuModel.take 7 ∈ ["G365PDC", "G370PDC"] then
      some ⟨imuModel, 0.0151515, 0.16, -0.0037918, -2634⟩
    else if imuModel.take 7 ∈
        ["G365PDF", "G370PDF", "G552PR7", "G552PR1", "G570PR1",
         "G552PC1", "G552PC7"] then
      some ⟨imuModel, 0.0151515, 0.4, -0.0037918, -2634⟩
    else if imuModel.take 7 ∈ ["G570PR2", "G370PDG"] then
      some ⟨imuModel, 0.0151515, 0.5, 0.0039063, 0⟩
    else if imuModel.take 7 ∈ ["G550PC2", "G55T2A0", "G55P200"] then
      some ⟨imuModel, 0.008, 0.2, -0.0037918, -2634⟩
    else none
  else if length = 7 then
    if imuModel ∈ ["G552PR7", "G552PR1", "G570PR1", "G365PDF", "G370PDF"] then
      some ⟨imuModel, 0.0151515, 0.4, -0.0037918, -2634⟩
    else if imuModel ∈ ["G570PR2", "G370PDG"] then
      some ⟨imuModel, 0.0151515, 0.5, 0.0039063, 0⟩
    else none
  else
    some ⟨imuModel, 1, 1, 1, 0⟩

/-- `set_SCL(model)` (source lines 605-623): the accelerometer-only family
(`A552AC1` / `A55A200` prefixes) gets hard-coded factors, every other code
goes through `setModel`.  `none` models the `UnboundLocalError` raised when
`setModel` assigns no factors. -/
def set_SCL (model : String) : Option ScaleFactors :=
  if model.take 7 ∈ ["A552AC1", "A55A200"] then
    some ⟨model, 0, 5.96046e-5, -0.0037918, 34.987⟩
  else
    setModel model

/-- Little-endian two-byte encoding (`struct.pack` format character `H`). -/
def u16le (v : Nat) : List Nat :=
  [v % 256, v / 256 % 256]

/-- Little-endian four-byte encoding (`struct.pack` format character `I`). -/
def u32le (v : Nat) : List Nat :=
  [v % 256, v / 256 % 256, v / 65536 % 256, v / 16777216 % 256]

/-- The request frame data built by `sdo_write` (source lines 918-934):
command byte `0x2f`/`0x2b`/`0x23` for payload width 1/2/4 (any other width
falls through to the 4-byte form), then the little-endian 16-bit object
index, the sub-index, the payload in little-endian, and zero padding to
8 bytes (formats `STRUCT_SDO1B`, `STRUCT_SDO2H`, `STRUCT_SDO4I`). -/
def sdo_write_encode (byte index subindex dat : Nat) : List Nat :=
  if byte = 1 then
    0x2f :: u16le index ++ [subindex % 256, dat % 256, 0, 0, 0]
  else if byte = 2 then
    0x2b :: u16le index ++ [subindex % 256] ++ u16le dat ++ [0, 0]
  else
    0x23 :: u16le index ++ [subindex % 256] ++ u32le dat

/-- `struct.unpack(STRUCT_SDO4I, ...)` (format `<BHBI`) applied to an
8-byte response: yields `(rcmd, rindex, rsubindex, rdat)`.  Shorter data
cannot occur for the 8-byte frames modelled here; the catch-all returns
zeros. -/
def sdo_decode4I (d : List Nat) : Nat × Nat × Nat × Nat :=
  match d with
  | [b0, b1, b2, b3, b4, b5, b6, b7] =>
      (b0, b1 + 256 * b2, b3, b4 + 256 * b5 + 65536 * b6 + 16777216 * b7)
  | _ => (0, 0, 0, 0)

/-- A received CAN frame as seen by the SDO wait loops: arbitration
identifier plus 8 data bytes. -/
structure SdoFrame where
  arbitration_id : Nat
  data : List Nat
deriving DecidableEq, Repr

/-- The response wait loop shared by `sdo_write` (source lines 944-950) and
`sdo_read` (lines 970-976): scan the incoming frame stream in order, skip
every frame whose arbitration id is not the RSDO identifier, and return the
`<BHBI>` decode of the first frame whose arbitration id equals the RSDO
identifier.  No echoed-index or sub-index check of any kind is performed.
`none` models the loop never terminating (stream exhausted). -/
def sdo_wait (rsdo : Nat) : List SdoFrame → Option (Nat × Nat × Nat × Nat)
  | [] => none
  | f :: rest =>
      if f.arbitration_id = rsdo then some (sdo_decode4I f.data)
      else sdo_wait rsdo rest

/-- The (days, ticks) pair packed by `time_send` (source lines 893-905) for
an instant that is `days` days plus `seconds` seconds plus `millis`
milliseconds after the CANopen epoch 1984-01-01:
`ticks = (seconds*1000 + millis/1000-of-microseconds) * 16`, here at
millisecond granularity. -/
def time_encode (days seconds millis : Nat) : Nat × Nat :=
  (days, (seconds * 1000 + millis) * 16)

/-- The device timestamp computed by the sample pipeline, expressed in
milliseconds since the CANopen epoch: the main loop divides the raw tick
count by 16 (source lines 1302-1303) and `print_row` adds
`timedelta(days) + timedelta(microseconds = millisecs*1000)` to
`CANOPEN_ERA_` (source lines 769-781). -/
def device_time_ms (days ticks : Nat) : ℚ :=
  days * 86400000 + (ticks : ℚ) / 16

/-- The assembled, scaled sample handed by `main` to `print_row`
(source lines 1325-1340): raw angular and acceleration fields multiplied
by the resolved scale factors, the raw counter, and the device timestamp
in milliseconds since the CANopen epoch. -/
structure Sample where
  angular : List ℚ
  accel : List ℚ
  counter : Nat
  deviceTimeMs : ℚ
deriving DecidableEq, Repr

/-- Sample assembly for the combined (gyro+accel) family: the `print_row`
call site in `main` scales `gx,gy,gz` by `GYRO_SF` and `ax,ay,az` by
`ACCL_SF`, passes the TPDO1 counter through raw, and the timestamp comes
from the decoded `(days, ticks)` pair. -/
def assemble (sf : ScaleFactors) (gx gy gz ax ay az : ℤ)
    (counter days ticks : Nat) : Sample :=
  { angular := [gx * sf.SF_GYRO, gy * sf.SF_GYRO, gz * sf.SF_GYRO]
  , accel := [ax * sf.SF_ACCL, ay * sf.SF_ACCL, az * sf.SF_ACCL]
  , counter := counter
  , deviceTimeMs := device_time_ms days ticks }

/-- The mutable state of the main receive loop (source lines 1193-1214)
that the PDO completion logic touches: the accumulated TPDO bitmask
`tpdo_captured`, the heartbeat flag `hb_captured`, and `index`, the number
of rows printed so far. -/
structure LoopState where
  tpdo_captured : Nat
  hb_captured : Nat
  index : Nat
deriving DecidableEq, Repr

/-- Initial loop state (`tpdo_captured = 0`, `hb_captured = 0`,
`index = 0`). -/
def init_state : LoopState :=
  { tpdo_captured := 0, hb_captured := 0, index := 0 }

/-- The demultiplexing branch of the loop body (source lines 1272-1306):
a frame on the HB1 identifier sets the heartbeat flag, a frame on a TPDO
identifier sets that TPDO's completion bit (and stores raw fields, not
tracked here), any other frame is reported as unrecognized and changes no
state. -/
def dispatch (c : CobId) (hb1 : Nat) (s : LoopState) (id : Nat) : LoopState :=
  if id = hb1 then { s with hb_captured := s.hb_captured ||| 1 }
  else if id = c.TPDO1 then { s with tpdo_captured := s.tpdo_captured ||| 1 }
  else if id = c.TPDO2 then { s with tpdo_captured := s.tpdo_captured ||| 2 }
  else if id = c.TPDO3 then { s with tpdo_captured := s.tpdo_captured ||| 4 }
  else if id = c.TPDO4 then { s with tpdo_captured := s.tpdo_captured ||| 8 }
  else s

/-- One full iteration of the main receive loop (source lines 1271-1354):
demultiplex the frame; if the accumulated mask equals the target mask
`tpdo_flg`, print a row, reset the mask to zero and increment `index`;
finally clear the heartbeat flag when it is set. -/
def loop_step (c : CobId) (hb1 tpdo_flg : Nat) (s : LoopState) (id : Nat) :
    LoopState :=
  let s1 := dispatch c hb1 s id
  let s2 :=
    if s1.tpdo_captured = tpdo_flg then
      { s1 with tpdo_captured := 0, index := s1.index + 1 }
    else s1
  if s2.hb_captured = 1 then { s2 with hb_captured := 0 } else s2

/-- The main receive loop run over a finite stream of frame identifiers. -/
def run_loop (c : CobId) (hb1 tpdo_flg : Nat) (s : LoopState)
    (ids : List Nat) : LoopState :=
  ids.foldl (loop_step c hb1 tpdo_flg) s

/-- The dataflow of `main` from profile resolution to row output on the
scaled path (source lines 1174, 1271-1349): `set_SCL(model)` runs before
the receive loop, and an unresolvable product code aborts the session
before any row can be printed (`none`); otherwise the number of rows is
what the receive loop produces. -/
def session_rows (model : String) (tpdo_flg : Nat) (ids : List Nat) :
    Option Nat :=
  match set_SCL model with
  | none => none
  | some _ =>
      some (run_loop (set_cobid cob_id_init 1) 0x701 tpdo_flg init_state
              ids).index

/-- How a session of `main` ends (source lines 1117-1379): normal loop
completion, a transport error (`PcanError` / `CanError`), a keyboard
interrupt, or a configuration-phase exception (for example the
`UnboundLocalError` of an unknown product code or a `KeyError` from a code
table), which none of the `except` clauses catches. -/
inductive SessionOutcome where
  | normal
  | transportError
  | userInterrupt
  | configError
deriving DecidableEq, Repr

/-- The externally visible teardown actions of `main`. -/
inductive FinalAction where
  | nmtPreOp
  | stopPeriodicTasks
  | shutdownBus
  | closeOutfile
  | exitProcess
deriving DecidableEq, Repr

/-- The teardown actions `main` executes for each outcome, in order
(source lines 1356-1379): the code after the `try` statement sends NMT
Pre-Operational, stops periodic tasks, shuts the bus down and closes the
output file; it is reached on normal completion and on
`KeyboardInterrupt`.  The `PcanError` / `CanError` handlers close the
output file and call `sys.exit()` without reaching it.  Any other
exception propagates uncaught, so no teardown action runs. -/
def final_actions : SessionOutcome → List FinalAction
  | .normal =>
      [.nmtPreOp, .stopPeriodicTasks, .shutdownBus, .closeOutfile]
  | .userInterrupt =>
      [.nmtPreOp, .stopPeriodicTasks, .shutdownBus, .closeOutfile]
  | .transportError => [.closeOutfile, .exitProcess]
  | .configError => []

/-- Claim C1: with the target completion mask requiring only TPDO1 and
TPDO2 (`tpdo_flg = 0x03`), feeding the receive loop the two frames in
either interleaving order emits a row exactly once, immediately after the
second of the two arrives, at which point the accumulated mask resets to
zero; and zero rows are emitted while only one of them has arrived. -/
theorem c1_pdo_completion :
    (run_loop (set_cobid cob_id_init 1) 0x701 3 init_state
        [(set_cobid cob_id_init 1).TPDO1]).index = 0 ∧
    (run_loop (set_cobid cob_id_init 1) 0x701 3 init_state
        [(set_cobid cob_id_init 1).TPDO2]).index = 0 ∧
    run_loop (set_cobid cob_id_init 1) 0x701 3 init_state
        [(set_cobid cob_id_init 1).TPDO1, (set_cobid cob_id_init 1).TPDO2]
      = ⟨0, 0, 1⟩ ∧
    run_loop (set_cobid cob_id_init 1) 0x701 3 init_state
        [(set_cobid cob_id_init 1).TPDO2, (set_cobid cob_id_init 1).TPDO1]
      = ⟨0, 0, 1⟩ := by
  decide

/-- Claim C2: product code "G570PR2" resolves to gyro scale 0.0151515,
accel scale 0.5, temperature scale 0.0039063 and offset 0, and for raw
fields angular = [100, -200, 300], accel = [10, -10, 0], counter = 5,
days = 14000, ticks = 160 the assembled sample has angular rates
[1.51515, -3.0303, 4.54545] deg/s, accelerations [5, -5, 0] mG and device
timestamp 14000 days plus 10 ms after the 1984-01-01 epoch (the tick
count divided by 16 gives milliseconds). -/
theorem c2_g570pr2_scenario :
    ∃ sf, set_SCL "G570PR2" = some sf ∧
      sf.SF_GYRO = 0.0151515 ∧ sf.SF_ACCL = 0.5 ∧
      sf.SF_TEMP = 0.0039063 ∧ sf.TEMPC_25C = 0 ∧
      assemble sf 100 (-200) 300 10 (-10) 0 5 14000 160
        = ⟨[1.51515, -3.0303, 4.54545], [5, -5, 0], 5,
           14000 * 86400000 + 10⟩ := by
  refine ⟨⟨"G570PR2", 0.0151515, 0.5, 0.0039063, 0⟩, rfl, rfl, rfl, rfl, rfl, ?_⟩
  simp only [assemble, device_time_ms, Sample.mk.injEq]
  norm_num

/-- Claim C3: for every node id in [1, 127] and node count in [1, 8], the
derived identifier set — NMT, SYNC, TIME, TPDO1-4, RSDO, TSDO, the
heartbeat entry (the registry `HB` key, used by the heartbeat receive
filters) and the per-node heartbeat identifiers HB1..HBN — is pairwise
distinct. -/
theorem c3_cobid_distinct (n N : Nat) (h1 : 1 ≤ n) (h2 : n ≤ 127)
    (h3 : 1 ≤ N) (h4 : N ≤ 8) : (derivedIds n N).Nodup := by
  have hids : derivedIds n N
      = [0, 0x080, 0x100, 0x180 + n, 0x280 + n, 0x380 + n, 0x480 + n,
         0x580 + n, 0x600 + n, 0x700]
        ++ (List.range N).map (fun i => 0x700 + (i + 1)) := rfl
  rw [hids, List.nodup_append]
  refine ⟨?_, ?_, ?_⟩
  · simp only [List.nodup_cons, List.mem_cons, List.not_mem_nil, or_false,
      List.nodup_nil, and_true, not_false_eq_true]
    push_neg
    omega
  · exact (List.nodup_range N).map (fun a b hab => by omega)
  · intro a ha hb
    simp only [List.mem_map, List.mem_range] at hb
    obtain ⟨i, hi, rfl⟩ := hb
    simp only [List.mem_cons, List.not_mem_nil, or_false] at ha
    omega

/-- Witness for C3 at node id 1 and node count 1. -/
theorem c3_witness : 1 ≤ 1 ∧ (derivedIds 1 1).Nodup :=
  ⟨le_refl 1,
   c3_cobid_distinct 1 1 (le_refl 1) (by decide) (le_refl 1) (by decide)⟩

/-- Claim C4: for width 1, 2 or 4, any 16-bit index, 8-bit sub-index and
value fitting in the width, decoding (with the response format `<BHBI>`)
a device echo of the encoded SDO write request recovers the command byte
for that width and the original index, sub-index and value — so the value
`sdo_write` returns equals the value written. -/
theorem c4_sdo_write_roundtrip (byte index subindex dat : Nat)
    (hb : byte = 1 ∨ byte = 2 ∨ byte = 4)
    (hi : index < 65536) (hs : subindex < 256) (hd : dat < 2 ^ (8 * byte)) :
    sdo_decode4I (sdo_write_encode byte index subindex dat)
      = ((if byte = 1 then 0x2f else if byte = 2 then 0x2b else 0x23),
         index, subindex, dat) := by
  rcases hb with rfl | rfl | rfl <;>
    · norm_num at hd ⊢
      simp only [sdo_write_encode, u16le, u32le, sdo_decode4I,
        List.cons_append, List.nil_append, Prod.mk.injEq]
      norm_num
      omega

/-- Witness for C4 at width 2, index 0x1800, sub-index 2, value 0x1234. -/
theorem c4_witness :
    (2 = 1 ∨ 2 = 2 ∨ 2 = 4) ∧
    sdo_decode4I (sdo_write_encode 2 0x1800 2 0x1234)
      = (0x2b, 0x1800, 2, 0x1234) :=
  ⟨by decide,
   by rw [c4_sdo_write_roundtrip 2 0x1800 2 0x1234 (by decide) (by decide)
       (by decide) (by decide)]
      decide⟩

/-- Claim C5 counterexample: a frame on the RSDO identifier whose echoed
object index (0x1234) differs from the requested index (0x1800) is NOT
treated as not-yet-matched — the wait loop accepts it and returns its
decoded value 99 instead of continuing to the later frame that echoes the
requested index with value 1. -/
theorem c5_counterexample :
    sdo_wait 0x581
        [⟨0x581, [0x60, 0x34, 0x12, 0, 99, 0, 0, 0]⟩,
         ⟨0x581, [0x60, 0x00, 0x18, 2, 1, 0, 0, 0]⟩]
      = some (0x60, 0x1234, 0, 99) ∧
    sdo_wait 0x581
        [⟨0x581, [0x60, 0x34, 0x12, 0, 99, 0, 0, 0]⟩,
         ⟨0x581, [0x60, 0x00, 0x18, 2, 1, 0, 0, 0]⟩]
      ≠ some (0x60, 0x1800, 2, 1) := by
  decide

/-- Claim C5 amended: during an SDO wait, frames on non-RSDO identifiers
are silently skipped, and the FIRST frame on the RSDO identifier is
accepted as the transaction result regardless of its echoed index. -/
theorem c5_first_rsdo_wins (rsdo : Nat) (pre : List SdoFrame) (f : SdoFrame)
    (rest : List SdoFrame) (hpre : ∀ g ∈ pre, g.arbitration_id ≠ rsdo)
    (hf : f.arbitration_id = rsdo) :
    sdo_wait rsdo (pre ++ f :: rest) = some (sdo_decode4I f.data) := by
  induction pre with
  | nil => simp [sdo_wait, hf]
  | cons g gs ih =>
      have hg : g.arbitration_id ≠ rsdo := hpre g (List.mem_cons_self g gs)
      simp only [List.cons_append, sdo_wait, if_neg hg]
      exact ih (fun x hx => hpre x (List.mem_cons_of_mem g hx))

/-- Witness for the amended C5: one skipped heartbeat frame, then an RSDO
frame with a mismatched echoed index, which is accepted. -/
theorem c5_witness :
    (∀ g ∈ [(⟨0x701, [0x05, 0, 0, 0, 0, 0, 0, 0]⟩ : SdoFrame)],
      g.arbitration_id ≠ 0x581) ∧
    sdo_wait 0x581
        [⟨0x701, [0x05, 0, 0, 0, 0, 0, 0, 0]⟩,
         ⟨0x581, [0x60, 0x34, 0x12, 0, 99, 0, 0, 0]⟩]
      = some (sdo_decode4I [0x60, 0x34, 0x12, 0, 99, 0, 0, 0]) :=
  ⟨by decide,
   c5_first_rsdo_wins 0x581 [⟨0x701, [0x05, 0, 0, 0, 0, 0, 0, 0]⟩]
     ⟨0x581, [0x60, 0x34, 0x12, 0, 99, 0, 0, 0]⟩ [] (by decide) rfl⟩

/-- Claim C6 counterexample: the product code "ZZZZZ" is in none of the
known-model tables, yet profile resolution does not fail — it silently
substitutes the default scale factors (1, 1, 1, 0) of the length-5/6
fallback branch of `setModel`. -/
theorem c6_counterexample :
    set_SCL "ZZZZZ" = some ⟨"ZZZZZ", 1, 1, 1, 0⟩ ∧
    (set_SCL "ZZZZZ").isSome = true :=
  ⟨rfl, rfl⟩

/-- Claim C6 amended: resolution of the unknown 7-character code
"ZZZZZZZ" fails (the `UnboundLocalError` path, modelled as `none`) and no
row is ever produced for that session on the scaled path; but unknown
codes of length 5 or 6, such as "ZZZZZ", silently receive the default
scale factors (1, 1, 1, 0) instead of failing. -/
theorem c6_default_substitution :
    set_SCL "ZZZZZZZ" = none ∧
    (∀ flg ids, session_rows "ZZZZZZZ" flg ids = none) ∧
    set_SCL "ZZZZZ" = some ⟨"ZZZZZ", 1, 1, 1, 0⟩ :=
  ⟨rfl, fun _ _ => rfl, rfl⟩

/-- Claim C7: encoding an instant (days, seconds, millis after the
1984-01-01 epoch) as the TIME payload pair — u16 day count and u32 tick
count with ticks = (seconds*1000 + millis)*16 — and converting back
through the sample pipeline's epoch arithmetic (days plus ticks/16
milliseconds) reproduces the instant exactly at millisecond precision. -/
theorem c7_time_roundtrip (days seconds millis : Nat)
    (hd : days < 65536) (hs : seconds < 86400) (hm : millis < 1000) :
    device_time_ms (time_encode days seconds millis).1
        (time_encode days seconds millis).2
      = (days : ℚ) * 86400000 + seconds * 1000 + millis := by
  simp only [time_encode, device_time_ms]
  push_cast
  ring

/-- Witness for C7 at 14000 days, 0 seconds, 10 milliseconds. -/
theorem c7_witness :
    14000 < 65536 ∧
    device_time_ms (time_encode 14000 0 10).1 (time_encode 14000 0 10).2
      = (14000 : ℚ) * 86400000 + 0 * 1000 + 10 :=
  ⟨by decide,
   by rw [c7_time_roundtrip 14000 0 10 (by decide) (by decide) (by decide)]
      norm_num⟩

/-- Claim C8 counterexample: on the transport-failure path none of the
shutdown actions (NMT Pre-Operational, stopping periodic tasks, closing
the transport) is executed — the handler closes the output file and calls
`sys.exit()` — and a configuration failure propagates uncaught, executing
no teardown at all. -/
theorem c8_counterexample :
    FinalAction.nmtPreOp ∉ final_actions .transportError ∧
    FinalAction.stopPeriodicTasks ∉ final_actions .transportError ∧
    FinalAction.shutdownBus ∉ final_actions .transportError ∧
    final_actions .configError = [] := by
  decide

/-- Claim C8 amended: only user interrupt and normal completion execute
the full shutdown sequence (NMT Pre-Operational, stop periodic tasks,
close the transport); a transport failure closes the output file and
exits without any of it, and a configuration failure runs no teardown. -/
theorem c8_shutdown_paths :
    final_actions .userInterrupt
      = [.nmtPreOp, .stopPeriodicTasks, .shutdownBus, .closeOutfile] ∧
    final_actions .normal
      = [.nmtPreOp, .stopPeriodicTasks, .shutdownBus, .closeOutfile] ∧
    final_actions .transportError = [.closeOutfile, .exitProcess] ∧
    final_actions .configError = [] := by
  decide

/-- C9 helper: with target mask zero, every frame that is the HB1
identifier or matches no TPDO identifier leaves the accumulated mask at
zero and prints exactly one row. -/
lemma c9_loop_invariant (ids : List Nat)
    (h : ∀ id ∈ ids, id = 0x701 ∨
      (id ≠ 0x181 ∧ id ≠ 0x281 ∧ id ≠ 0x381 ∧ id ≠ 0x481)) :
    ∀ i : Nat,
      run_loop (set_cobid cob_id_init 1) 0x701 0 ⟨0, 0, i⟩ ids
        = ⟨0, 0, i + ids.length⟩ := by
  induction ids with
  | nil => intro i; simp [run_loop]
  | cons id rest ih =>
      intro i
      have hid := h id (List.mem_cons_self id rest)
      have hrest : ∀ x ∈ rest, x = 0x701 ∨
          (x ≠ 0x181 ∧ x ≠ 0x281 ∧ x ≠ 0x381 ∧ x ≠ 0x481) :=
        fun x hx => h x (List.mem_cons_of_mem id hx)
      have hstep : loop_step (set_cobid cob_id_init 1) 0x701 0 ⟨0, 0, i⟩ id
          = ⟨0, 0, i + 1⟩ := by
        by_cases hhb : id = 0x701
        · simp [loop_step, dispatch, hhb]
        · rcases hid with rfl | ⟨n1, n2, n3, n4⟩
          · exact absurd rfl hhb
          · simp [loop_step, dispatch, set_cobid, cob_id_init,
              hhb, n1, n2, n3, n4]
      rw [run_loop, List.foldl_cons, hstep]
      have hrec := ih hrest (i + 1)
      rw [run_loop] at hrec
      rw [hrec]
      simp only [LoopState.mk.injEq, List.length_cons, true_and]
      omega

/-- Claim C9 counterexample: with a target mask of zero, a received TPDO1
frame makes the accumulated mask nonzero, so the completion condition
does NOT hold after it and no row is emitted for that frame (0 rows for
1 received frame, against the claimed one row per frame). -/
theorem c9_counterexample :
    (run_loop (set_cobid cob_id_init 1) 0x701 0 init_state
        [(set_cobid cob_id_init 1).TPDO1]).index = 0 ∧
    (run_loop (set_cobid cob_id_init 1) 0x701 0 init_state
        [(set_cobid cob_id_init 1).TPDO1]).tpdo_captured ≠ 0 := by
  decide

/-- Claim C9 amended: with a target mask of zero, the loop emits one row
per received frame and keeps the completion condition true after every
frame, as long as every frame is a heartbeat or unrecognized frame (one
storing no TPDO completion bit). -/
theorem c9_row_per_frame (ids : List Nat)
    (h : ∀ id ∈ ids, id = 0x701 ∨
      (id ≠ 0x181 ∧ id ≠ 0x281 ∧ id ≠ 0x381 ∧ id ≠ 0x481)) :
    (run_loop (set_cobid cob_id_init 1) 0x701 0 init_state ids).index
        = ids.length ∧
    (run_loop (set_cobid cob_id_init 1) 0x701 0 init_state ids).tpdo_captured
        = 0 := by
  have := c9_loop_invariant ids h 0
  rw [show init_state = (⟨0, 0, 0⟩ : LoopState) from rfl, this]
  simp

/-- Witness for the amended C9: a heartbeat frame followed by an
unrecognized frame produce two rows. -/
theorem c9_witness :
    (∀ id ∈ [0x701, 0x123], id = 0x701 ∨
      (id ≠ 0x181 ∧ id ≠ 0x281 ∧ id ≠ 0x381 ∧ id ≠ 0x481)) ∧
    (run_loop (set_cobid cob_id_init 1) 0x701 0 init_state
        [0x701, 0x123]).index = 2 := by
  refine ⟨by decide, ?_⟩
  rw [(c9_row_per_frame [0x701, 0x123] (by decide)).1]
  rfl

/-- Claim C10: `set_cobid` mutates the shared registry in place and is
not idempotent — applying it twice with node id n leaves the TPDO1-4,
RSDO, TSDO and heartbeat (HBx) entries at base + 2n instead of base + n,
so the derived set matches the single-application (CANopen) assignment
only when derivation runs exactly once. -/
theorem c10_not_idempotent (n : Nat) (h : 1 ≤ n) :
    (set_cobid (set_cobid cob_id_init n) n).TPDO1 = 0x180 + 2 * n ∧
    (set_cobid (set_cobid cob_id_init n) n).TPDO2 = 0x280 + 2 * n ∧
    (set_cobid (set_cobid cob_id_init n) n).TPDO3 = 0x380 + 2 * n ∧
    (set_cobid (set_cobid cob_id_init n) n).TPDO4 = 0x480 + 2 * n ∧
    (set_cobid (set_cobid cob_id_init n) n).RSDO = 0x580 + 2 * n ∧
    (set_cobid (set_cobid cob_id_init n) n).TSDO = 0x600 + 2 * n ∧
    (set_cobid (set_cobid cob_id_init n) n).HBx = 0x700 + 2 * n ∧
    (set_cobid (set_cobid cob_id_init n) n).TPDO1
      ≠ (set_cobid cob_id_init n).TPDO1 := by
  simp only [set_cobid, cob_id_init]
  omega

/-- Witness for C10 at node id 1. -/
theorem c10_witness :
    1 ≤ 1 ∧ (set_cobid (set_cobid cob_id_init 1) 1).TPDO1 = 0x180 + 2 * 1 :=
  ⟨le_refl 1, (c10_not_idempotent 1 (le_refl 1)).1⟩

end CanA552
